import Mathlib

/-!
Shallow embedding of the KilometriTracker core: the validation layer
(`apps/core/validators.py`), the Google Maps distance service
(`apps/trips/services.py`), and the trip/report store operations
(`apps/trips/views.py`, `apps/reports/views.py`, the serializers and models).

Conventions used throughout:
* Decimal values with two fractional digits (`distance_km`, `total_km`)
  are represented as integer hundredths ("cents"): `350.25` km is `35025`.
* Calendar dates are records of year/month/day integers ordered
  lexicographically, exactly as Python `datetime.date` ordering behaves.
* Python functions that raise typed exceptions are embedded as
  `Except`-valued functions; the exception class or error code becomes the
  error value.
-/

/-- Decidable equality for `Except`, so concrete runs of the embedded
operations can be checked by `decide`. -/
instance {ε α : Type} [DecidableEq ε] [DecidableEq α] : DecidableEq (Except ε α) :=
  fun x y =>
    match x, y with
    | .error a, .error b =>
      if h : a = b then .isTrue (by rw [h])
      else .isFalse (by intro hc; injection hc; contradiction)
    | .ok a, .ok b =>
      if h : a = b then .isTrue (by rw [h])
      else .isFalse (by intro hc; injection hc; contradiction)
    | .error _, .ok _ => .isFalse (by intro hc; injection hc)
    | .ok _, .error _ => .isFalse (by intro hc; injection hc)

namespace KMT

/-- Calendar date: year, month, day, compared lexicographically
(the comparison order of Python `datetime.date`). -/
structure SDate where
  year : Int
  month : Int
  day : Int
deriving DecidableEq, Repr

/-- Boolean strict ordering on dates, lexicographic on (year, month, day). -/
def dateLtB (a b : SDate) : Bool :=
  decide (a.year < b.year) ||
    (decide (a.year = b.year) &&
      (decide (a.month < b.month) ||
        (decide (a.month = b.month) && decide (a.day < b.day))))

/-- Day number of a proleptic-Gregorian date (days since the civil epoch
1970-01-01), the standard `days_from_civil` computation.  Used to embed
Python `date` arithmetic with `timedelta(days=n)`: subtracting `n` days
shifts the day number by `n`.  For the dates the Python `datetime.date` type can
represent (year at least 1) every intermediate quotient below is taken on a
nonnegative numerator. -/
def daysFromCivil (d : SDate) : Int :=
  let y := if d.month ≤ 2 then d.year - 1 else d.year
  let era := (if 0 ≤ y then y else y - 399) / 400
  let yoe := y - era * 400
  let mp := if d.month > 2 then d.month - 3 else d.month + 9
  let doy := (153 * mp + 2) / 5 + d.day - 1
  let doe := yoe * 365 + yoe / 4 - yoe / 100 + doy
  era * 146097 + doe - 719468

/-- Error codes raised by the validators in `apps/core/validators.py`,
one constructor per `ValidationError(code=...)` in the source, plus the
generic max-length code the serializer layer attaches to over-long
`purpose` strings. -/
inductive VCode where
  | distanceNegative
  | distanceTooHigh
  | addressTooShort
  | addressTooLong
  | addressDangerousChars
  | dateFuture
  | dateTooOld
  | invalidMonth
  | yearTooOld
  | yearFuture
  | reportDateFuture
  | maxLengthExceeded
deriving DecidableEq, Repr

/-- The exact `code=` string each `VCode` constructor embeds
(from `apps/core/validators.py`). -/
def VCode.codeString : VCode → String
  | .distanceNegative => "invalid_distance_negative"
  | .distanceTooHigh => "invalid_distance_too_high"
  | .addressTooShort => "invalid_address_too_short"
  | .addressTooLong => "invalid_address_too_long"
  | .addressDangerousChars => "invalid_address_dangerous_chars"
  | .dateFuture => "invalid_date_future"
  | .dateTooOld => "invalid_date_too_old"
  | .invalidMonth => "invalid_month"
  | .yearTooOld => "invalid_year_too_old"
  | .yearFuture => "invalid_year_future"
  | .reportDateFuture => "invalid_report_date_future"
  | .maxLengthExceeded => "max_length"

/-- Embedding of `validate_distance` (validators.py lines 16-62).  The
distance value is in hundredths of a km, so the source test `value <= 0` is
`v ≤ 0`, `value > 10000` (km) is `v > 1000000`, and the suspicious-round
check `value % 100 == 0 and value >= 100` (km) is
`v % 10000 = 0 ∧ v ≥ 10000`.  The returned `Bool` records whether the
"suspiciously round" warning was logged; the source logs but does not
fail in that case. -/
def validate_distance (v : Int) : Except VCode Bool :=
  if v ≤ 0 then .error .distanceNegative
  else if v > 1000000 then .error .distanceTooHigh
  else .ok (decide (v % 10000 = 0) && decide (v ≥ 10000))

/-- Case-folded character list of a string (Python `re.IGNORECASE` on the
ASCII-only dangerous patterns reduces to lower-casing both sides). -/
def lowerChars (s : String) : List Char :=
  s.data.map Char.toLower

/-- Whether list `p` occurs at the head of `l`. -/
def matchesAt (p l : List Char) : Bool :=
  match p, l with
  | [], _ => true
  | _ :: _, [] => false
  | a :: ps, b :: ls => a == b && matchesAt ps ls

/-- Whether list `p` occurs as a contiguous run anywhere in `l`. -/
def hasSub (p l : List Char) : Bool :=
  match l with
  | [] => matchesAt p []
  | _ :: t => matchesAt p l || hasSub p t

/-- Case-insensitive substring test: `re.search(pattern, value,
re.IGNORECASE)` for the literal patterns used in `validate_address`. -/
def strContainsCI (value pattern : String) : Bool :=
  hasSub (lowerChars pattern) (lowerChars value)

/-- The `dangerous_patterns` list of validators.py lines 106-115, with each
regex escape unescaped to the literal text it matches. -/
def dangerous_patterns : List String :=
  ["<script", "<iframe", "javascript:", "--;", "/*", "*/", "||", "@@"]

/-- The pattern loop of validators.py lines 117-123: raise
`invalid_address_dangerous_chars` at the first matching pattern. -/
def checkDangerous (value : String) : List String → Except VCode Unit
  | [] => .ok ()
  | p :: rest =>
    if strContainsCI value p then .error .addressDangerousChars
    else checkDangerous value rest

/-- Embedding of `validate_address` (validators.py lines 65-123): length
below 1 fails `too_short` (the documented 5-character floor is not what
the code enforces), length above 500 fails `too_long`, then the dangerous
pattern scan. -/
def validate_address (value : String) : Except VCode Unit :=
  if value.length < 1 then .error .addressTooShort
  else if value.length > 500 then .error .addressTooLong
  else checkDangerous value dangerous_patterns

/-- Embedding of `validate_trip_date` (validators.py lines 126-165):
fails `date_future` when the value is after `today`, fails `date_too_old`
when before `today - timedelta(days=730)` (compared via day numbers). -/
def validate_trip_date (today value : SDate) : Except VCode Unit :=
  if dateLtB today value then .error .dateFuture
  else if daysFromCivil value < daysFromCivil today - 730 then .error .dateTooOld
  else .ok ()

/-- Embedding of `validate_year_month` (validators.py lines 168-219),
with `date.today()` passed explicitly as `today`. -/
def validate_year_month (today : SDate) (year month : Int) : Except VCode Unit :=
  if ¬ (1 ≤ month ∧ month ≤ 12) then .error .invalidMonth
  else if year < 2020 then .error .yearTooOld
  else if year > today.year + 1 then .error .yearFuture
  else if dateLtB today ⟨year, month, 1⟩ then .error .reportDateFuture
  else .ok ()

/-- Rounding of `distance_meters / 1000` to two decimal places, in
hundredths of a km: the embedding of
`(Decimal(distance_meters) / Decimal(1000)).quantize(Decimal("0.01"))`
(services.py lines 183-186).  The division by 1000 expressed in
hundredths is division by 10, and `quantize` uses the Python default
`ROUND_HALF_EVEN`. -/
def metersToKmCents (m : Nat) : Nat :=
  if m % 10 < 5 then m / 10
  else if m % 10 > 5 then m / 10 + 1
  else if (m / 10) % 2 = 0 then m / 10 else m / 10 + 1

/-- One element of the provider `rows[0].elements` list, the fields the
service reads: `status`, `distance.value` (meters), `duration.value`
(seconds). -/
structure PElement where
  status : String
  distance_value : Nat
  duration_value : Nat
deriving DecidableEq, Repr

/-- The provider response fields consumed by `calculate_distance`:
top-level `status`, the single element, and the geocoded
`origin_addresses[0]` / `destination_addresses[0]`. -/
structure PResponse where
  status : String
  element : PElement
  origin_address : String
  destination_address : String
deriving DecidableEq, Repr

/-- The two exception classes of `apps/core/exceptions.py` that
`calculate_distance` raises, each carrying its message
(`str(e)` of the Python exception). -/
inductive DistErr where
  | invalidAddress (msg : String)
  | apiError (msg : String)
deriving DecidableEq, Repr

/-- Message text of a raised exception, Python `str(e)`. -/
def DistErr.msg : DistErr → String
  | .invalidAddress m => m
  | .apiError m => m

/-- Success payload of `calculate_distance` (services.py lines 193-200);
`route_data` (the raw response) is carried alongside. -/
structure DistResult where
  distance_km_cents : Nat
  distance_meters : Nat
  duration_seconds : Nat
  start_address : String
  end_address : String
  route_data : PResponse
deriving DecidableEq, Repr

/-- The Python test `not s or not s.strip()`: true exactly when the string is
empty or consists only of whitespace. -/
def blankStr (s : String) : Bool :=
  s.data.all Char.isWhitespace

/-- The body of the `try` block of `calculate_distance` (services.py
lines 108-207) applied to an already-received provider response: check
top-level status, then element status (`NOT_FOUND` raises
`InvalidAddressError`, `ZERO_RESULTS` and anything else raise
`GoogleMapsAPIError`), then build the success payload. -/
def calcDistanceTry (resp : PResponse) : Except DistErr DistResult :=
  if resp.status ≠ "OK" then
    .error (.apiError ("Google Maps API returned error: " ++ resp.status))
  else if resp.element.status ≠ "OK" then
    if resp.element.status = "NOT_FOUND" then
      .error (.invalidAddress
        "One or both addresses could not be found. Please check spelling and try again.")
    else if resp.element.status = "ZERO_RESULTS" then
      .error (.apiError
        "No route found between these addresses. They may be on different continents or islands.")
    else
      .error (.apiError ("Could not calculate distance: " ++ resp.element.status))
  else
    .ok { distance_km_cents := metersToKmCents resp.element.distance_value
          distance_meters := resp.element.distance_value
          duration_seconds := resp.element.duration_value
          start_address := resp.origin_address
          end_address := resp.destination_address
          route_data := resp }

/-- Embedding of `GoogleMapsService.calculate_distance` (services.py
lines 63-229) for a call whose outbound request yields the response
`resp`.  The empty-address checks (lines 96-100) sit outside the `try`
block, so their `InvalidAddressError` escapes as raised.  Every exception
raised inside the `try` block — including the `InvalidAddressError` for
element status `NOT_FOUND` — is an `Exception`, so the final
`except Exception as e` clause (line 226) catches it and re-raises
`GoogleMapsAPIError("An unexpected error occurred: " + str(e))`; that
catch-all is embedded by the `match` on `calcDistanceTry`. -/
def calculate_distance (start_address end_address : String) (resp : PResponse) :
    Except DistErr DistResult :=
  if blankStr start_address then .error (.invalidAddress "Start address cannot be empty")
  else if blankStr end_address then .error (.invalidAddress "End address cannot be empty")
  else
    match calcDistanceTry resp with
    | .ok r => .ok r
    | .error e => .error (.apiError ("An unexpected error occurred: " ++ e.msg))

/-- A persisted `Trip` row (apps/trips/models.py): owner key, date,
addresses, distance in hundredths of a km, purpose, the manual-entry
flag, the optional route-data blob (opaque here), and the two
timestamps. -/
structure Trip where
  owner : Nat
  date : SDate
  start_address : String
  end_address : String
  distance_cents : Int
  purpose : String
  is_manual : Bool
  route_data : Option String
  created_at : Nat
  updated_at : Nat
deriving DecidableEq, Repr

/-- A persisted `MonthlyReport` row (apps/reports/models.py): owner key,
period, snapshot totals, delivery timestamp (null until sent) and
creation timestamp.  The file fields are not modelled. -/
structure MonthlyReport where
  owner : Nat
  year : Int
  month : Int
  total_cents : Int
  trip_count : Nat
  sent_at : Option Nat
  created_at : Nat
deriving DecidableEq, Repr

/-- The persistent store: all trip rows and report rows. -/
structure Store where
  trips : List Trip
  reports : List MonthlyReport
deriving DecidableEq, Repr

/-- The filter `Trip.objects.filter(user=user, date__year=year,
date__month=month)` applied to one row. -/
def tripMatches (u : Nat) (y m : Int) (t : Trip) : Bool :=
  t.owner == u && decide (t.date.year = y) && decide (t.date.month = m)

/-- The queryset of the trips of one owner in a calendar month. -/
def monthTrips (s : Store) (u : Nat) (y m : Int) : List Trip :=
  s.trips.filter (tripMatches u y m)

/-- The filter `MonthlyReport.objects.filter(user=user, year=year,
month=month)` applied to one row. -/
def reportKey (u : Nat) (y m : Int) (r : MonthlyReport) : Bool :=
  r.owner == u && decide (r.year = y) && decide (r.month = m)

/-- Trip ordering used by `order_by("-date")`: `a` may precede `b`
exactly when `a.date` is not before `b.date`. -/
def dateDescR (a b : Trip) : Prop :=
  dateLtB a.date b.date = false

instance : DecidableRel dateDescR :=
  fun a b => instDecidableEqBool (dateLtB a.date b.date) false

/-- The `order_by("-date")` of MonthlySummaryView: sort that month of
trips by date, newest first. -/
def sortByDateDesc (l : List Trip) : List Trip :=
  l.insertionSort dateDescR

/-- Response payload of the monthly summary endpoint (trips/views.py
lines 360-368), totals in hundredths of a km. -/
structure Summary where
  year : Int
  month : Int
  trip_count : Nat
  total_cents : Int
  manual_count : Nat
  automatic_count : Nat
  trips : List Trip
deriving DecidableEq, Repr

/-- Embedding of `MonthlySummaryView.get` (trips/views.py lines
318-375): reject a month outside 1-12, then compute trip count, total
(`sum(trip.distance_km for trip in trips)` when nonempty, else
`Decimal("0.00")`) and the manual/automatic partition counts over the
date-descending queryset. -/
def monthlySummary (s : Store) (u : Nat) (y m : Int) : Except String Summary :=
  if ¬ (1 ≤ m ∧ m ≤ 12) then .error "Month must be between 1 and 12"
  else
    let trips := sortByDateDesc (monthTrips s u y m)
    let trip_count := trips.length
    let total : Int :=
      if trip_count > 0 then (trips.map (fun t => t.distance_cents)).sum else 0
    let manual := (trips.filter (fun t => t.is_manual)).length
    let auto := (trips.filter (fun t => !t.is_manual)).length
    .ok { year := y, month := m, trip_count := trip_count, total_cents := total
          manual_count := manual, automatic_count := auto, trips := trips }

/-- SQL `Sum("distance_km")` over a queryset: `NULL` (`none`) on an empty
set, otherwise the sum. -/
def sqlSum (l : List Trip) : Option Int :=
  if l.isEmpty then none
  else some ((l.map (fun t => t.distance_cents)).sum)

/-- The expression `trips.aggregate(total=Sum("distance_km"))["total"] or
Decimal("0.00")` (reports/views.py line 125): Python `or` replaces both
`None` and a falsy `Decimal("0.00")` by `Decimal("0.00")`. -/
def sqlSumOr0 (l : List Trip) : Int :=
  match sqlSum l with
  | none => 0
  | some v => if v = 0 then 0 else v

/-- Whether an `Except` computation succeeded. -/
def okB : Except ε α → Bool
  | .ok _ => true
  | .error _ => false

/-- The `ReportGenerateSerializer` validation (reports/serializers.py):
year field bounds 2020-2030, month field bounds 1-12, then
`validate_year_month`. -/
def genRequestValid (today : SDate) (y m : Int) : Bool :=
  decide (2020 ≤ y) && decide (y ≤ 2030) && decide (1 ≤ m) && decide (m ≤ 12) &&
    okB (validate_year_month today y m)

/-- Outcome of a report-generation request (GenerateReportView.post):
serializer rejection (400), conflict with the existing report (409),
empty-period rejection (400), or the freshly created report (201). -/
inductive GenResult where
  | invalidRequest
  | conflict (existing : MonthlyReport)
  | insufficientData
  | created (report : MonthlyReport)
deriving DecidableEq, Repr

/-- Embedding of `GenerateReportView.post` (reports/views.py lines
79-144): validate the request, return 409 with the existing report when
one exists for (owner, year, month), reject a zero-trip period, else
persist a new `MonthlyReport` snapshot with the aggregated total and
count.  `today` stands for `date.today()` inside validation and `now`
for the `auto_now_add` creation timestamp of the row. -/
def generateReport (today : SDate) (now : Nat) (s : Store) (u : Nat) (y m : Int) :
    Store × GenResult :=
  if genRequestValid today y m = false then (s, .invalidRequest)
  else
    match s.reports.find? (reportKey u y m) with
    | some existing => (s, .conflict existing)
    | none =>
      let trips := monthTrips s u y m
      let trip_count := trips.length
      if trip_count = 0 then (s, .insufficientData)
      else
        let total := sqlSumOr0 trips
        let report : MonthlyReport :=
          { owner := u, year := y, month := m, total_cents := total
            trip_count := trip_count, sent_at := none, created_at := now }
        ({ s with reports := s.reports ++ [report] }, .created report)

/-- Partial update payload accepted by `TripUpdateSerializer`
(trips/serializers.py lines 228-260): exactly the five writable fields,
each optional (PATCH may omit any of them). -/
structure TripUpdate where
  date : Option SDate
  start_address : Option String
  end_address : Option String
  distance_cents : Option Int
  purpose : Option String
deriving DecidableEq, Repr

/-- Run a field validator when the field is present in the payload. -/
def vOpt (f : α → Except VCode Unit) : Option α → Except VCode Unit
  | none => .ok ()
  | some a => f a

/-- The serializer-level check on `purpose`: the model field bound
`max_length=500`. -/
def validatePurpose (p : String) : Except VCode Unit :=
  if p.length > 500 then .error .maxLengthExceeded else .ok ()

/-- Embedding of a PUT/PATCH through `TripDetailView` with
`TripUpdateSerializer`: validate every provided field with the core
validators, then write only the five writable fields onto the row
(`updated_at` is refreshed by `auto_now`).  Owner, `is_manual`,
`route_data` and `created_at` are not in the serializer field list and
are never written. -/
def updateTrip (today : SDate) (now : Nat) (t : Trip) (u : TripUpdate) :
    Except VCode Trip :=
  match vOpt (validate_trip_date today) u.date with
  | .error e => .error e
  | .ok _ =>
  match vOpt validate_address u.start_address with
  | .error e => .error e
  | .ok _ =>
  match vOpt validate_address u.end_address with
  | .error e => .error e
  | .ok _ =>
  match vOpt (fun v => (validate_distance v).map (fun _ => ())) u.distance_cents with
  | .error e => .error e
  | .ok _ =>
  match vOpt validatePurpose u.purpose with
  | .error e => .error e
  | .ok _ =>
    .ok { t with
      date := u.date.getD t.date
      start_address := u.start_address.getD t.start_address
      end_address := u.end_address.getD t.end_address
      distance_cents := u.distance_cents.getD t.distance_cents
      purpose := u.purpose.getD t.purpose
      updated_at := now }

/-- The manual 300.00 km trip of 2025-12-01 from the spec aggregation
scenario. -/
def tripDec01 : Trip :=
  { owner := 1, date := ⟨2025, 12, 1⟩, start_address := "Oulu, Finland"
    end_address := "Helsinki, Finland", distance_cents := 30000
    purpose := "Business meeting", is_manual := true, route_data := none
    created_at := 1, updated_at := 1 }

/-- The automatic 50.25 km trip of 2025-12-15 from the spec aggregation
scenario. -/
def tripDec15 : Trip :=
  { owner := 1, date := ⟨2025, 12, 15⟩, start_address := "Helsinki, Finland"
    end_address := "Oulu, Finland", distance_cents := 5025
    purpose := "", is_manual := false, route_data := some "route"
    created_at := 2, updated_at := 2 }

/-- A concrete "today" for the scenario runs. -/
def demoToday : SDate := ⟨2025, 12, 31⟩

/-- Store holding exactly the two December-2025 scenario trips. -/
def demoStore : Store := { trips := [tripDec01, tripDec15], reports := [] }

/-- The report the scenario generation run persists. -/
def demoReport : MonthlyReport :=
  { owner := 1, year := 2025, month := 12, total_cents := 35025
    trip_count := 2, sent_at := none, created_at := 7 }

/-- Store state after the scenario generation run. -/
def demoStoreAfter : Store := { trips := [tripDec01, tripDec15], reports := [demoReport] }

/-- The summary the scenario summary run returns (trips newest first). -/
def demoSummary : Summary :=
  { year := 2025, month := 12, trip_count := 2, total_cents := 35025
    manual_count := 1, automatic_count := 1, trips := [tripDec15, tripDec01] }

/-- A store with no rows at all. -/
def emptyStore : Store := { trips := [], reports := [] }

/-- Provider response with top-level status `OK` and element status
`NOT_FOUND`. -/
def nfResp : PResponse :=
  { status := "OK", element := { status := "NOT_FOUND", distance_value := 0, duration_value := 0 }
    origin_address := "", destination_address := "" }

/-- Provider response of the spec scenario for Oulu-Helsinki: status `OK`,
`distance.value = 607500`, `duration.value = 21600`. -/
def okRespDemo : PResponse :=
  { status := "OK"
    element := { status := "OK", distance_value := 607500, duration_value := 21600 }
    origin_address := "Oulu, Finland", destination_address := "Helsinki, Finland" }

/-- The success payload `calculate_distance` builds from `okRespDemo`. -/
def okResultDemo : DistResult :=
  { distance_km_cents := 60750, distance_meters := 607500, duration_seconds := 21600
    start_address := "Oulu, Finland", end_address := "Helsinki, Finland"
    route_data := okRespDemo }

/-- An update payload touching address and distance only. -/
def demoUpdate : TripUpdate :=
  { date := none, start_address := some "Kemi, Finland", end_address := none
    distance_cents := some 10000, purpose := none }

/-- The row `demoUpdate` produces from `tripDec01`. -/
def tripDec01Updated : Trip :=
  { tripDec01 with
    start_address := "Kemi, Finland"
    distance_cents := 10000
    updated_at := 9 }

/-! ## Helper lemmas -/

/-- `matchesAt p l` holds exactly when `p` is an initial run of `l`. -/
theorem matchesAt_iff (p l : List Char) :
    matchesAt p l = true ↔ ∃ rest, l = p ++ rest := by
  induction p generalizing l with
  | nil => simp [matchesAt]
  | cons a ps ih =>
    cases l with
    | nil => simp [matchesAt]
    | cons b ls =>
      simp only [matchesAt, Bool.and_eq_true, beq_iff_eq, ih, List.cons_append,
        List.cons.injEq]
      constructor
      · rintro ⟨rfl, rest, rfl⟩
        exact ⟨rest, rfl, rfl⟩
      · rintro ⟨rest, rfl, rfl⟩
        exact ⟨rfl, rest, rfl⟩

/-- `hasSub p l` holds exactly when `p` occurs contiguously inside `l`. -/
theorem hasSub_iff (p l : List Char) :
    hasSub p l = true ↔ ∃ pre post, l = pre ++ p ++ post := by
  induction l with
  | nil =>
    cases p <;> simp [hasSub, matchesAt]
  | cons b ls ih =>
    simp only [hasSub, Bool.or_eq_true, ih, matchesAt_iff]
    constructor
    · rintro (⟨rest, hrest⟩ | ⟨pre, post, rfl⟩)
      · exact ⟨[], rest, by simpa using hrest⟩
      · exact ⟨b :: pre, post, by simp⟩
    · rintro ⟨pre, post, hl⟩
      cases pre with
      | nil =>
        exact Or.inl ⟨post, by simpa using hl⟩
      | cons c cs =>
        simp only [List.cons_append, List.cons.injEq] at hl
        exact Or.inr ⟨cs, post, hl.2⟩

/-- The case-insensitive pattern search succeeds exactly when the
case-folded pattern occurs inside the case-folded string. -/
theorem strContainsCI_iff (v p : String) :
    strContainsCI v p = true ↔
      ∃ pre post, lowerChars v = pre ++ lowerChars p ++ post :=
  hasSub_iff (lowerChars p) (lowerChars v)

/-- The dangerous-pattern loop succeeds exactly when no pattern in the
list matches. -/
theorem checkDangerous_ok_iff (v : String) (pats : List String) :
    checkDangerous v pats = .ok () ↔ ∀ p ∈ pats, ¬ strContainsCI v p = true := by
  induction pats with
  | nil => simp [checkDangerous]
  | cons p rest ih =>
    simp only [checkDangerous]
    split_ifs with h
    · simp [h]
    · simp [h, ih]

/-- Only `addressDangerousChars` can come out of the pattern loop. -/
theorem checkDangerous_ok_or_dangerous (v : String) (pats : List String) :
    checkDangerous v pats = .ok () ∨
      checkDangerous v pats = .error .addressDangerousChars := by
  induction pats with
  | nil => exact Or.inl rfl
  | cons p rest ih =>
    simp only [checkDangerous]
    split_ifs with h
    · exact Or.inr rfl
    · exact ih

/-- `find?` on a one-element extension when the prefix has no hit. -/
theorem find?_append_single {α} (l : List α) (p : α → Bool) (x : α)
    (hl : l.find? p = none) (hx : p x = true) :
    (l ++ [x]).find? p = some x := by
  induction l with
  | nil => simp [List.find?, hx]
  | cons a as ih =>
    cases hpa : p a with
    | true => simp [List.find?_cons_of_pos _ hpa] at hl
    | false =>
      have hpa' : ¬ p a = true := by simp [hpa]
      rw [List.find?_cons_of_neg _ hpa'] at hl
      rw [List.cons_append, List.find?_cons_of_neg _ hpa']
      exact ih hl

/-- Counts of the manual/automatic partition add up to the length. -/
theorem filter_manual_length_add (l : List Trip) :
    (l.filter (fun t => t.is_manual)).length +
      (l.filter (fun t => !t.is_manual)).length = l.length := by
  induction l with
  | nil => rfl
  | cons t ts ih =>
    by_cases h : t.is_manual = true <;> simp [List.filter, h] <;> omega

/-! ## Claim theorems -/

/-- C6: `validate_distance d` succeeds iff `0 < d ≤ 10000` km, fails
with code `invalid_distance_negative` when `d ≤ 0` and
`invalid_distance_too_high` when `d > 10000` km, and within the
accepted range the "suspiciously round" warning is logged (without
failing) exactly for multiples of 100 km that are at least 100 km.
Values are in hundredths of a km: 10000 km is 1000000. -/
theorem validate_distance_characterized :
    ∀ v : Int,
      (okB (validate_distance v) = true ↔ (0 < v ∧ v ≤ 1000000)) ∧
      (v ≤ 0 → validate_distance v = .error .distanceNegative) ∧
      (1000000 < v → validate_distance v = .error .distanceTooHigh) ∧
      (∀ b, validate_distance v = .ok b →
        (b = true ↔ (v % 10000 = 0 ∧ 10000 ≤ v))) := by
  intro v
  unfold validate_distance
  split_ifs with h1 h2
  · refine ⟨by simp [okB]; omega, fun _ => rfl, by omega, by simp⟩
  · refine ⟨by simp [okB]; omega, by omega, fun _ => rfl, by simp⟩
  · refine ⟨by simp [okB]; omega, by omega, by omega, ?_⟩
    intro b hb
    injection hb with hb
    subst hb
    simp [ge_iff_le]

/-- C6 witness: 250.00 km (25000 hundredths) is accepted. -/
theorem validate_distance_characterized_witness :
    okB (validate_distance 25000) = true :=
  (validate_distance_characterized 25000).1.mpr (by constructor <;> decide)

/-- C7: `validate_address a` fails exactly when the length is below 1,
above 500, or some pattern of the fixed dangerous-pattern list occurs in
`a` case-insensitively. -/
theorem validate_address_characterized :
    ∀ a : String,
      okB (validate_address a) = false ↔
        (a.length < 1 ∨ 500 < a.length ∨
          ∃ p ∈ dangerous_patterns,
            ∃ pre post, lowerChars a = pre ++ lowerChars p ++ post) := by
  intro a
  unfold validate_address
  split_ifs with h1 h2
  · simp [okB, h1]
  · simp [okB, h1, h2]
  · rcases checkDangerous_ok_or_dangerous a dangerous_patterns with hok | herr
    · rw [hok]
      simp only [okB, Bool.true_eq_false, false_iff]
      push_neg
      rw [checkDangerous_ok_iff] at hok
      refine ⟨by omega, by omega, ?_⟩
      intro p hp
      have := hok p hp
      rw [strContainsCI_iff] at this
      push_neg at this
      exact this
    · rw [herr]
      simp only [okB, true_iff]
      have : ¬ checkDangerous a dangerous_patterns = .ok () := by
        rw [herr]; intro hc; cases hc
      rw [checkDangerous_ok_iff] at this
      push_neg at this
      obtain ⟨p, hp, hmatch⟩ := this
      rw [strContainsCI_iff] at hmatch
      exact Or.inr (Or.inr ⟨p, hp, hmatch⟩)

/-- C7 witness: a string hiding a script marker in mixed case is
rejected. -/
theorem validate_address_characterized_witness :
    okB (validate_address "hello <ScRiPt> world") = false :=
  (validate_address_characterized "hello <ScRiPt> world").mpr
    (Or.inr (Or.inr ⟨"<script", by decide,
      "hello ".data, "> world".data, by decide⟩))

/-- C8: `validate_year_month` checks, in order: month in 1-12
(`invalid_month`), year at least 2020 (`invalid_year_too_old`), year at
most `current_year + 1` (`invalid_year_future`), first day of the period
not after today (`invalid_report_date_future`), and succeeds otherwise;
in particular month 13 always fails with `invalid_month`. -/
theorem validate_year_month_characterized :
    (∀ (today : SDate) (y m : Int),
      (¬ (1 ≤ m ∧ m ≤ 12) → validate_year_month today y m = .error .invalidMonth) ∧
      ((1 ≤ m ∧ m ≤ 12) → y < 2020 →
        validate_year_month today y m = .error .yearTooOld) ∧
      ((1 ≤ m ∧ m ≤ 12) → ¬ y < 2020 → today.year + 1 < y →
        validate_year_month today y m = .error .yearFuture) ∧
      ((1 ≤ m ∧ m ≤ 12) → ¬ y < 2020 → ¬ today.year + 1 < y →
        dateLtB today ⟨y, m, 1⟩ = true →
        validate_year_month today y m = .error .reportDateFuture) ∧
      ((1 ≤ m ∧ m ≤ 12) → ¬ y < 2020 → ¬ today.year + 1 < y →
        dateLtB today ⟨y, m, 1⟩ = false →
        validate_year_month today y m = .ok ())) ∧
    (∀ today : SDate, validate_year_month today 2025 13 = .error .invalidMonth) := by
  constructor
  · intro today y m
    unfold validate_year_month
    refine ⟨?_, ?_, ?_, ?_, ?_⟩ <;> intros <;> split_ifs <;>
      first
        | rfl
        | omega
        | simp_all
  · intro today
    unfold validate_year_month
    rw [if_pos (by omega)]

/-- C8 witness: month 13 in 2025 is rejected as `invalid_month`. -/
theorem validate_year_month_characterized_witness :
    validate_year_month ⟨2025, 12, 31⟩ 2025 13 = .error .invalidMonth :=
  (validate_year_month_characterized.1 ⟨2025, 12, 31⟩ 2025 13).1 (by omega)

/-- C5: every successful distance calculation carries
`distance_km = distance_meters / 1000` rounded to two decimal places:
in hundredths of a km the result is within half a unit of
`meters / 10`, exact when `meters` is a multiple of 10, with ties going
to the even hundredth (`ROUND_HALF_EVEN` of `quantize`); in particular
607500 meters yield exactly 607.50 km. -/
theorem distance_rounding_characterized :
    (∀ sa ea resp r, calculate_distance sa ea resp = Except.ok r →
        r.distance_km_cents = metersToKmCents r.distance_meters) ∧
    (∀ m : Nat,
        (m % 10 = 0 → metersToKmCents m = m / 10) ∧
        (-5 ≤ 10 * (metersToKmCents m : Int) - m ∧
          10 * (metersToKmCents m : Int) - m ≤ 5) ∧
        ((10 * (metersToKmCents m : Int) - m = 5 ∨
            10 * (metersToKmCents m : Int) - m = -5) →
          metersToKmCents m % 2 = 0)) ∧
    metersToKmCents 607500 = 60750 := by
  refine ⟨?_, ?_, by decide⟩
  · intro sa ea resp r h
    unfold calculate_distance at h
    split_ifs at h
    cases htry : calcDistanceTry resp with
    | error e => rw [htry] at h; exact Except.noConfusion h
    | ok dr =>
      rw [htry] at h
      injection h with h
      subst h
      unfold calcDistanceTry at htry
      split_ifs at htry
      first
        | exact Except.noConfusion htry
        | (injection htry with htry; subst htry; rfl)
  · intro m
    unfold metersToKmCents
    split_ifs <;> refine ⟨?_, ⟨?_, ?_⟩, ?_⟩ <;> intros <;> omega

/-- C5 witness: the Oulu-Helsinki scenario response with
`distance.value = 607500` yields a result whose `distance_km` is the
rounded meters-to-km conversion, 607.50 km. -/
theorem distance_rounding_characterized_witness :
    calculate_distance "Oulu, Finland" "Helsinki, Finland" okRespDemo =
        Except.ok okResultDemo ∧
      okResultDemo.distance_km_cents = metersToKmCents okResultDemo.distance_meters ∧
      okResultDemo.distance_km_cents = 60750 :=
  ⟨by decide,
   distance_rounding_characterized.1 "Oulu, Finland" "Helsinki, Finland"
     okRespDemo okResultDemo (by decide),
   by decide⟩

/-- C1 (divergence witness): with top-level status `OK` and element
status `NOT_FOUND`, `calculate_distance` raises `InvalidAddressError`
inside the `try` block (services.py line 160), but the blanket
`except Exception` clause (line 226) catches it and re-raises
`GoogleMapsAPIError` — so the call fails with the provider-error kind,
wrapped as "An unexpected error occurred: ...", not with the
invalid-address kind the docstring and spec describe. -/
theorem calculate_distance_not_found_wrapped :
    calculate_distance "Oulu, Finland" "Helsinki, Finland" nfResp =
      Except.error (DistErr.apiError
        "An unexpected error occurred: One or both addresses could not be found. Please check spelling and try again.") := by
  decide

/-- C2: when a generation request creates a report, an identical second
request finds it, returns it as the conflict payload, leaves the store
(and hence every stored field of the first report) unchanged, and the
store holds exactly one report for that (owner, year, month). -/
theorem generate_report_idempotent :
    ∀ (today : SDate) (now now2 : Nat) (s : Store) (u : Nat) (y m : Int)
      (s1 : Store) (r : MonthlyReport),
      generateReport today now s u y m = (s1, .created r) →
      generateReport today now2 s1 u y m = (s1, .conflict r) ∧
      s1.reports.find? (reportKey u y m) = some r ∧
      (s1.reports.filter (reportKey u y m)).length = 1 := by
  intro today now now2 s u y m s1 r h
  unfold generateReport at h
  split_ifs at h with hval
  · simp at h
  · rw [Bool.not_eq_false] at hval
    cases hfind : s.reports.find? (reportKey u y m) with
    | some ex => rw [hfind] at h; simp at h
    | none =>
      rw [hfind] at h
      dsimp only at h
      split_ifs at h with hcnt
      · simp at h
      · simp only [Prod.mk.injEq, GenResult.created.injEq] at h
        obtain ⟨hs1, hr⟩ := h
        subst hs1
        subst hr
        have hkey : reportKey u y m
            { owner := u, year := y, month := m
              total_cents := sqlSumOr0 (monthTrips s u y m)
              trip_count := (monthTrips s u y m).length
              sent_at := none, created_at := now } = true := by
          simp [reportKey]
        have hfilnil : s.reports.filter (reportKey u y m) = [] :=
          List.filter_eq_nil_iff.mpr (fun x hx => by
            simp [List.find?_eq_none.mp hfind x hx])
        have hfind1 := find?_append_single s.reports (reportKey u y m) _ hfind hkey
        refine ⟨?_, hfind1, ?_⟩
        · unfold generateReport
          rw [if_neg (by simp [hval])]
          dsimp only
          rw [hfind1]
        · dsimp only
          rw [List.filter_append, hfilnil, List.nil_append]
          simp [hkey]

/-- C2 witness: generating December 2025 twice on the two-trip store
conflicts with the persisted report and leaves exactly one report. -/
theorem generate_report_idempotent_witness :
    generateReport demoToday 8 demoStoreAfter 1 2025 12 =
        (demoStoreAfter, .conflict demoReport) ∧
      demoStoreAfter.reports.find? (reportKey 1 2025 12) = some demoReport ∧
      (demoStoreAfter.reports.filter (reportKey 1 2025 12)).length = 1 :=
  generate_report_idempotent demoToday 7 8 demoStore 1 2025 12 demoStoreAfter
    demoReport (by decide)

/-- C3: for a valid period with no existing report and zero trips, the
monthly summary succeeds with total exactly 0.00 (and zero counts),
while report generation fails with the insufficient-data outcome and
leaves the store untouched. -/
theorem zero_trip_period_policies :
    ∀ (today : SDate) (now : Nat) (s : Store) (u : Nat) (y m : Int),
      genRequestValid today y m = true →
      s.reports.find? (reportKey u y m) = none →
      monthTrips s u y m = [] →
      monthlySummary s u y m = Except.ok
        { year := y, month := m, trip_count := 0, total_cents := 0
          manual_count := 0, automatic_count := 0, trips := [] } ∧
      generateReport today now s u y m = (s, GenResult.insufficientData) := by
  intro today now s u y m hval hfind htrips
  have hm : 1 ≤ m ∧ m ≤ 12 := by
    unfold genRequestValid at hval
    simp only [Bool.and_eq_true, decide_eq_true_eq] at hval
    exact ⟨hval.1.1.2, hval.1.2⟩
  constructor
  · unfold monthlySummary
    rw [if_neg (not_not_intro hm), htrips]
    rfl
  · unfold generateReport
    rw [if_neg (by simp [hval]), hfind]
    dsimp only
    rw [htrips]
    rfl

/-- C3 witness: November 2025 on the empty store. -/
theorem zero_trip_period_policies_witness :
    monthlySummary emptyStore 1 2025 11 = Except.ok
      { year := 2025, month := 11, trip_count := 0, total_cents := 0
        manual_count := 0, automatic_count := 0, trips := [] } ∧
    generateReport demoToday 3 emptyStore 1 2025 11 =
      (emptyStore, GenResult.insufficientData) :=
  zero_trip_period_policies demoToday 3 emptyStore 1 2025 11
    (by decide) (by decide) (by decide)

/-- C4: every successful monthly summary reports exactly the arithmetic
sum of `distance_km` over the trips of that owner and calendar month, the
count of those trips, and a manual/automatic partition adding up to the
count; and the spec December-2025 scenario (300.00 km manual on the
1st, 50.25 km automatic on the 15th) yields trip_count 2, total 350.25,
manual 1, automatic 1, both via report generation and via the summary. -/
theorem aggregation_correct :
    (∀ (s : Store) (u : Nat) (y m : Int) (out : Summary),
        monthlySummary s u y m = Except.ok out →
        out.total_cents = ((monthTrips s u y m).map (fun t => t.distance_cents)).sum ∧
        out.trip_count = (monthTrips s u y m).length ∧
        out.manual_count + out.automatic_count = out.trip_count) ∧
    (generateReport demoToday 7 demoStore 1 2025 12 =
        (demoStoreAfter, GenResult.created demoReport) ∧
      demoReport.trip_count = 2 ∧ demoReport.total_cents = 35025) ∧
    (monthlySummary demoStore 1 2025 12 = Except.ok demoSummary ∧
      demoSummary.trip_count = 2 ∧ demoSummary.total_cents = 35025 ∧
      demoSummary.manual_count = 1 ∧ demoSummary.automatic_count = 1) := by
  refine ⟨?_, ⟨by decide, by decide, by decide⟩,
    ⟨by decide, by decide, by decide, by decide, by decide⟩⟩
  intro s u y m out h
  unfold monthlySummary at h
  by_cases hm : 1 ≤ m ∧ m ≤ 12
  case neg =>
    rw [if_pos hm] at h
    exact Except.noConfusion h
  case pos =>
    rw [if_neg (not_not_intro hm)] at h
    dsimp only at h
    injection h with h
    subst h
    have hperm : (sortByDateDesc (monthTrips s u y m)).Perm (monthTrips s u y m) :=
      List.perm_insertionSort _ _
    refine ⟨?_, hperm.length_eq, ?_⟩
    · dsimp only
      split_ifs with hl
      · exact (hperm.map (fun t => t.distance_cents)).sum_eq
      · have h0 : (monthTrips s u y m).length = 0 := by
          have := hperm.length_eq
          omega
        rw [List.length_eq_zero.mp h0]
        rfl
    · exact filter_manual_length_add _

/-- C4 witness: the scenario summary satisfies the partition law. -/
theorem aggregation_correct_witness :
    demoSummary.manual_count + demoSummary.automatic_count = demoSummary.trip_count :=
  (aggregation_correct.1 demoStore 1 2025 12 demoSummary (by decide)).2.2

/-- C9: a successful trip update never changes the owner, the
`is_manual` flag, the `route_data` blob or the `created_at` timestamp,
and leaves every writable field that the payload omits unchanged — only
date, addresses, distance and purpose (plus the automatic `updated_at`)
can change. -/
theorem update_trip_frame :
    ∀ (today : SDate) (now : Nat) (t : Trip) (u : TripUpdate) (t' : Trip),
      updateTrip today now t u = Except.ok t' →
      t'.owner = t.owner ∧ t'.is_manual = t.is_manual ∧
      t'.route_data = t.route_data ∧ t'.created_at = t.created_at ∧
      (u.date = none → t'.date = t.date) ∧
      (u.start_address = none → t'.start_address = t.start_address) ∧
      (u.end_address = none → t'.end_address = t.end_address) ∧
      (u.distance_cents = none → t'.distance_cents = t.distance_cents) ∧
      (u.purpose = none → t'.purpose = t.purpose) := by
  intro today now t u t' h
  unfold updateTrip at h
  repeat' split at h
  any_goals exact Except.noConfusion h
  injection h with h
  subst h
  refine ⟨rfl, rfl, rfl, rfl, ?_, ?_, ?_, ?_, ?_⟩ <;>
    (intro hn; simp [hn])

/-- C9 witness: the concrete address-and-distance update keeps owner,
flag, blob and creation timestamp. -/
theorem update_trip_frame_witness :
    tripDec01Updated.owner = tripDec01.owner ∧
    tripDec01Updated.is_manual = tripDec01.is_manual ∧
    tripDec01Updated.route_data = tripDec01.route_data ∧
    tripDec01Updated.created_at = tripDec01.created_at := by
  have h := update_trip_frame demoToday 9 tripDec01 demoUpdate tripDec01Updated
    (by decide)
  exact ⟨h.1, h.2.1, h.2.2.1, h.2.2.2.1⟩

/-- C10: the two aggregation implementations agree: the generation
path SQL `Sum` with null-coalescing equals the summary path guarded
Python sum on every trip list, and whenever a generation request
actually creates a report while the summary succeeds on the same store,
owner and period, the persisted `total_km` equals the summary
`total_km`. -/
theorem aggregation_paths_equal :
    (∀ l : List Trip,
        sqlSumOr0 l =
          (if 0 < l.length then (l.map (fun t => t.distance_cents)).sum else 0)) ∧
    (∀ (today : SDate) (now : Nat) (s : Store) (u : Nat) (y m : Int)
        (s1 : Store) (r : MonthlyReport) (out : Summary),
        generateReport today now s u y m = (s1, GenResult.created r) →
        monthlySummary s u y m = Except.ok out →
        r.total_cents = out.total_cents) := by
  have hsum : ∀ l : List Trip,
      sqlSumOr0 l =
        (if 0 < l.length then (l.map (fun t => t.distance_cents)).sum else 0) := by
    intro l
    cases l with
    | nil => rfl
    | cons a as =>
      have h1 : sqlSum (a :: as) =
          some ((List.map (fun t => t.distance_cents) (a :: as)).sum) := rfl
      unfold sqlSumOr0
      rw [h1, if_pos (show 0 < (a :: as).length from Nat.succ_pos _)]
      simp
      exact fun h' => h'.symm
  refine ⟨hsum, ?_⟩
  intro today now s u y m s1 r out hgen hsummary
  -- extract the total of the created report
  unfold generateReport at hgen
  split_ifs at hgen with hval
  · simp at hgen
  · cases hfind : s.reports.find? (reportKey u y m) with
    | some ex => rw [hfind] at hgen; simp at hgen
    | none =>
      rw [hfind] at hgen
      dsimp only at hgen
      split_ifs at hgen with hcnt
      · simp at hgen
      · simp only [Prod.mk.injEq, GenResult.created.injEq] at hgen
        obtain ⟨hs1, hr⟩ := hgen
        -- extract the total of the summary
        unfold monthlySummary at hsummary
        by_cases hm : 1 ≤ m ∧ m ≤ 12
        case neg =>
          rw [if_pos hm] at hsummary
          exact Except.noConfusion hsummary
        case pos =>
          rw [if_neg (not_not_intro hm)] at hsummary
          dsimp only at hsummary
          injection hsummary with hsummary
          subst hsummary
          subst hr
          have hperm : (sortByDateDesc (monthTrips s u y m)).Perm (monthTrips s u y m) :=
            List.perm_insertionSort _ _
          dsimp only
          rw [hsum (monthTrips s u y m)]
          rw [if_pos (by omega), if_pos (by have := hperm.length_eq; omega)]
          exact ((hperm.map (fun t => t.distance_cents)).sum_eq).symm

/-- C10 witness: on the December-2025 scenario store the generated
report total equals the summary total. -/
theorem aggregation_paths_equal_witness :
    demoReport.total_cents = demoSummary.total_cents :=
  aggregation_paths_equal.2 demoToday 7 demoStore 1 2025 12 demoStoreAfter
    demoReport demoSummary (by decide) (by decide)

end KMT
